import Mathlib

/-!
Shallow embedding of the voxel-grid / terrain-generation core of the
minecraft-clone repository (stabilized implementation in src/unnamed/part_001;
an earlier near-duplicate lives in src/src/App.tsx).

Modelling choices:
* JavaScript numbers used as coordinates, chunk counts and block counts are
  modelled as `Int` (the program only ever uses integral values for them).
* JavaScript numbers used for terrain parameters and noise values are modelled
  as `ℚ` (exact arithmetic standing in for IEEE doubles; every claim treated
  here is about the algebraic shape of the computation, not float rounding).
* `Math.floor(x / b)` on integral `x`, `b` is `Int.fdiv x b` (the floor of the
  exact quotient); the JavaScript `%` operator is the truncating remainder
  `Int.tmod`.
* The external `simplex-noise` package's `createNoise2D(() => seededRandom(seed))`
  is outside this repository; `generateTerrain` therefore takes the resulting
  deterministic noise function `noise : ℚ → ℚ → ℚ` as an explicit parameter.
  Determinism of the library (same seed, same function) is represented by
  passing the same `noise` to the runs being compared.
* `Array.from({length: n})` clamps a negative length to zero; `Int.toNat`
  models that.
* JavaScript optional chaining `a?.[i]` is `Option.bind` over a guarded list
  lookup; a negative index yields `undefined`, i.e. `none`.
-/

/-- Source `enum BlockType { Air, Dirt, Grass }` (part_001 lines 30-34). -/
inductive BlockType
  | Air
  | Dirt
  | Grass
deriving DecidableEq, Repr

/-- Source `interface BlockMetaData` (part_001 lines 36-39): `isSolid` flag and a display name. -/
structure BlockMetaData where
  isSolid : Bool
  name : String
deriving DecidableEq, Repr

/-- Table `BLOCK_META_DATA_MAP` (part_001 lines 110-123): Air is non-solid, Dirt and
Grass are solid. -/
def BLOCK_META_DATA_MAP : BlockType → BlockMetaData
  | BlockType.Air => ⟨false, "Air"⟩
  | BlockType.Dirt => ⟨true, "Dirt"⟩
  | BlockType.Grass => ⟨true, "Grass"⟩

/-- Source `interface Block` (`position: Vector3Tuple; type: BlockType; instanceId: number | null`,
part_001 lines 43-47). Field `instanceId` is the render slot the presentation layer
may stamp on a block; the core only carries it. -/
structure Block where
  position : Int × Int × Int
  type : BlockType
  instanceId : Option Int
deriving DecidableEq, Repr

/-- The 5-level nested array `BlockGrid = Block[][][][][]` (chunk-X → chunk-Z →
local-X → local-Y → local-Z, part_001 lines 49-51). -/
abbrev BlockGrid : Type := List (List (List (List (List Block))))

/-- The `params.size` record (part_001 lines 58-64). -/
structure SizeParams where
  chunkCountX : Int
  chunkCountZ : Int
  blocksPerChunkX : Int
  blocksPerChunkZ : Int
  blocksPerChunkY : Int
deriving DecidableEq, Repr

/-- The `params.terrain` record (part_001 lines 65-70). -/
structure TerrainParams where
  scale : ℚ
  magnitude : ℚ
  offset : ℚ
  seed : Int
deriving DecidableEq, Repr

/-- The store's `world` slice: the grid plus its parameters
(part_001 lines 53-71, 127-144). -/
structure World where
  grid : BlockGrid
  size : SizeParams
  terrain : TerrainParams
deriving DecidableEq

/-- The store's initial state (part_001 lines 127-144): an empty grid with the
default size and terrain parameters (`0.5` and `0.2` written exactly). -/
def initialState : World :=
  { grid := ([] : BlockGrid)
    size := ⟨4, 4, 16, 16, 16⟩
    terrain := ⟨70, 1/2, 1/5, 0⟩ }

/-- The record returned by `worldToBlockCoords` (part_001 lines 77-83). -/
structure BlockCoords where
  chunkX : Int
  chunkZ : Int
  blockX : Int
  blockY : Int
  blockZ : Int
deriving DecidableEq, Repr

/-- Method `worldToBlockCoords` (part_001 lines 146-157): `Math.floor(x / blocksPerChunkX)`
is the floor of the exact quotient (`Int.fdiv`), while the JavaScript `%`
operator is the truncating remainder (`Int.tmod`). All call sites use positive
divisors, where those translations are exact. -/
def worldToBlockCoords (w : World) (x y z : Int) : BlockCoords :=
  { chunkX := Int.fdiv x w.size.blocksPerChunkX
    chunkZ := Int.fdiv z w.size.blocksPerChunkZ
    blockX := Int.tmod x w.size.blocksPerChunkX
    blockY := Int.tmod y w.size.blocksPerChunkY
    blockZ := Int.tmod z w.size.blocksPerChunkZ }

/-- Method `isBlockInBounds` (part_001 lines 159-173). -/
def isBlockInBounds (w : World) (x y z : Int) : Bool :=
  (decide (0 ≤ x) && decide (x < w.size.blocksPerChunkX * w.size.chunkCountX)) &&
  (decide (0 ≤ y) && decide (y < w.size.blocksPerChunkY)) &&
  (decide (0 ≤ z) && decide (z < w.size.blocksPerChunkZ * w.size.chunkCountZ))

/-- JavaScript array indexing `l[i]`: `undefined` (`none`) for a negative or
too-large index. -/
def idxI {α : Type} (l : List α) (i : Int) : Option α :=
  if 0 ≤ i then l[i.toNat]? else none

/-- The optional-chaining lookup `grid?.[chunkX]?.[chunkZ]?.[blockX]?.[blockY]?.[blockZ]`
used by `getBlock` (part_001 lines 191-193). -/
def blockAt (g : BlockGrid) (a b c d e : Int) : Option Block :=
  ((((idxI g a).bind fun u => idxI u b).bind fun u => idxI u c).bind
      fun u => idxI u d).bind
    fun u => idxI u e

/-- Method `getBlock` (part_001 lines 175-196): `null` out of bounds, otherwise the
optional-chaining lookup at the mapped coordinates (which can itself be `null`
when the grid has not been allocated at those indices). -/
def getBlock (w : World) (x y z : Int) : Option Block :=
  if isBlockInBounds w x y z then
    let c := worldToBlockCoords w x y z
    blockAt w.grid c.chunkX c.chunkZ c.blockX c.blockY c.blockZ
  else none

/-- In-place update of one list element; out-of-range indices leave the list
unchanged (the behaviour of mutating a looked-up element only when the lookup
succeeded). -/
def modAt {α : Type} : List α → Nat → (α → α) → List α
  | [], _, _ => []
  | a :: l, 0, f => f a :: l
  | a :: l, Nat.succ n, f => a :: modAt l n f

/-- Update `modAt` with a JavaScript-style integer index. -/
def modI {α : Type} (l : List α) (i : Int) (f : α → α) : List α :=
  if 0 ≤ i then modAt l i.toNat f else l

/-- Method `setBlockType` (part_001 lines 198-206): look the block up through
`getBlock`; if present, mutate its `type` in place (modelled as a path update
at the same mapped coordinates). -/
def setBlockType (w : World) (x y z : Int) (t : BlockType) : World :=
  match getBlock w x y z with
  | none => w
  | some _ =>
    let c := worldToBlockCoords w x y z
    { w with
        grid :=
          modI w.grid c.chunkX fun g1 =>
            modI g1 c.chunkZ fun g2 =>
              modI g2 c.blockX fun g3 =>
                modI g3 c.blockY fun g4 =>
                  modI g4 c.blockZ fun b => { b with type := t } }

/-- One step of the `.every((block) => block && BLOCK_META_DATA_MAP[block.type].isSolid)`
test (part_001 lines 220-222). -/
def isSolidAt (o : Option Block) : Bool :=
  match o with
  | some b => (BLOCK_META_DATA_MAP b.type).isSolid
  | none => false

/-- Method `isBlockObscured` (part_001 lines 208-223): all six axis neighbors
must be present and solid. -/
def isBlockObscured (w : World) (x y z : Int) : Bool :=
  isSolidAt (getBlock w x (y + 1) z) &&
  isSolidAt (getBlock w x (y - 1) z) &&
  isSolidAt (getBlock w (x - 1) y z) &&
  isSolidAt (getBlock w (x + 1) y z) &&
  isSolidAt (getBlock w x y (z - 1)) &&
  isSolidAt (getBlock w x y (z + 1))

/-- The nested `Array.from({length: …}).map` grid builders of `initializeGrid`
and `generateTerrain` (part_001 lines 246-278 and 304-324): a negative length
behaves as zero (`Int.toNat`). -/
def mkGrid (cX cZ bX bY bZ : Int) (f : Int → Int → Int → Int → Int → Block) :
    BlockGrid :=
  (List.range cX.toNat).map fun (cx : Nat) =>
    (List.range cZ.toNat).map fun (cz : Nat) =>
      (List.range bX.toNat).map fun (lx : Nat) =>
        (List.range bY.toNat).map fun (ly : Nat) =>
          (List.range bZ.toNat).map fun (lz : Nat) =>
            f ((cx : Nat) : Int) ((cz : Nat) : Int) ((lx : Nat) : Int)
              ((ly : Nat) : Int) ((lz : Nat) : Int)

/-- The per-block arrow function of `initializeGrid` (part_001 lines 310-319):
resolved world position, `type: BlockType.Dirt`, `instanceId: null`. -/
def initialBlock (bX bZ : Int) (cx cz lx ly lz : Int) : Block :=
  { position := (cx * bX + lx, ly, cz * bZ + lz)
    type := BlockType.Dirt
    instanceId := none }

/-- Method `initializeGrid` (part_001 lines 282-326): each argument defaults to the
current size parameter (`??`); the size parameters are overwritten and the
grid fully rebuilt, every block carrying its resolved world position,
`type: BlockType.Dirt` and `instanceId: null`. -/
def initializeGrid (cX? cZ? bX? bY? bZ? : Option Int) (w : World) : World :=
  let cX := cX?.getD w.size.chunkCountX
  let cZ := cZ?.getD w.size.chunkCountZ
  let bX := bX?.getD w.size.blocksPerChunkX
  let bY := bY?.getD w.size.blocksPerChunkY
  let bZ := bZ?.getD w.size.blocksPerChunkZ
  { w with
      size :=
        { chunkCountX := cX
          chunkCountZ := cZ
          blocksPerChunkX := bX
          blocksPerChunkZ := bZ
          blocksPerChunkY := bY }
      grid := mkGrid cX cZ bX bY bZ (initialBlock bX bZ) }

/-- The fallback for the source's non-null assertion
`grid[chunkX][chunkZ][blockX][blockY][blockZ]!` (part_001 line 266); every
theorem below only visits states in which the lookup succeeds, so this default
is never the value actually used. -/
def dummyBlock : Block :=
  { position := (0, 0, 0), type := BlockType.Air, instanceId := none }

/-- The per-block arrow function of `generateTerrain` (part_001 lines 251-274):
evaluate the noise at the block's world column, derive the clamped column
height, and rebuild the block as a spread of the previous block at the same
indices with the freshly computed type. -/
def terrainBlock (noise : ℚ → ℚ → ℚ) (w : World) (cx cz lx ly lz : Int) : Block :=
  let value :=
    noise (((cx * w.size.blocksPerChunkX + lx : Int) : ℚ) / w.terrain.scale)
      (((cz * w.size.blocksPerChunkZ + lz : Int) : ℚ) / w.terrain.scale)
  let scaledNoise := w.terrain.offset + w.terrain.magnitude * value
  let height := ⌊(w.size.blocksPerChunkY : ℚ) * scaledNoise⌋
  let clampedHeight := max 0 (min height (w.size.blocksPerChunkY - 1))
  let old := (blockAt w.grid cx cz lx ly lz).getD dummyBlock
  { old with
      type :=
        if ly ≤ clampedHeight then
          if ly = clampedHeight then BlockType.Grass else BlockType.Dirt
        else BlockType.Air }

/-- Method `generateTerrain` (part_001 lines 225-280) with the library noise function
as explicit parameter: the grid is rebuilt at the current size; each block
keeps the previous block's fields (spread of the old block) except that its
`type` is recomputed from the column height
`clamp(floor(blocksPerChunkY * (offset + magnitude * noise(x / scale, z / scale))), 0, blocksPerChunkY - 1)`. -/
def generateTerrain (noise : ℚ → ℚ → ℚ) (w : World) : World :=
  { w with
      grid :=
        mkGrid w.size.chunkCountX w.size.chunkCountZ w.size.blocksPerChunkX
          w.size.blocksPerChunkY w.size.blocksPerChunkZ (terrainBlock noise w) }

/-- The per-column clamped terrain height
`clamp(floor(blocksPerChunkY * (offset + magnitude * noise(x / scale, z / scale))), 0, blocksPerChunkY - 1)`
as a function of the world column `(x, z)` — the quantity the specification
calls `height`. -/
def terrainHeight (w : World) (noise : ℚ → ℚ → ℚ) (x z : Int) : Int :=
  let value := noise ((x : ℚ) / w.terrain.scale) ((z : ℚ) / w.terrain.scale)
  max 0
    (min ⌊(w.size.blocksPerChunkY : ℚ) * (w.terrain.offset + w.terrain.magnitude * value)⌋
      (w.size.blocksPerChunkY - 1))


/-! ### Basic lemmas about the embedding -/

/-- Propositional form of `isBlockInBounds`. -/
lemma isBlockInBounds_iff (w : World) (x y z : Int) :
    isBlockInBounds w x y z = true ↔
      (0 ≤ x ∧ x < w.size.blocksPerChunkX * w.size.chunkCountX) ∧
      (0 ≤ y ∧ y < w.size.blocksPerChunkY) ∧
      (0 ≤ z ∧ z < w.size.blocksPerChunkZ * w.size.chunkCountZ) := by
  simp [isBlockInBounds, and_assoc]

/-- Out of bounds means `getBlock` answers `none` (the early return of part_001
lines 181-183). -/
lemma getBlock_eq_none_of_not_inBounds {w : World} {x y z : Int}
    (h : isBlockInBounds w x y z = false) : getBlock w x y z = none := by
  simp [getBlock, h]

/-- Conversely, a successful `getBlock` lookup implies the coordinate was in
bounds. -/
lemma inBounds_of_getBlock_eq_some {w : World} {x y z : Int} {b : Block}
    (h : getBlock w x y z = some b) : isBlockInBounds w x y z = true := by
  by_contra hn
  rw [Bool.not_eq_true] at hn
  rw [getBlock_eq_none_of_not_inBounds hn] at h
  exact Option.noConfusion h

/-- Indexing a mapped range with an in-range integer index. -/
lemma idxI_range_map {α : Type} (n : Int) (g : Nat → α) {i : Int}
    (h0 : 0 ≤ i) (h1 : i < n) :
    idxI ((List.range n.toNat).map g) i = some (g i.toNat) := by
  have hlt : i.toNat < n.toNat := by omega
  rw [idxI, if_pos h0, List.getElem?_map, List.getElem?_range hlt]
  rfl

/-- Looking a built grid up at in-range integer indices yields exactly the
generating function's block. -/
lemma blockAt_mkGrid {cX cZ bX bY bZ : Int} (f : Int → Int → Int → Int → Int → Block)
    {a b c d e : Int}
    (ha0 : 0 ≤ a) (ha1 : a < cX) (hb0 : 0 ≤ b) (hb1 : b < cZ)
    (hc0 : 0 ≤ c) (hc1 : c < bX) (hd0 : 0 ≤ d) (hd1 : d < bY)
    (he0 : 0 ≤ e) (he1 : e < bZ) :
    blockAt (mkGrid cX cZ bX bY bZ f) a b c d e = some (f a b c d e) := by
  rw [blockAt, mkGrid]
  rw [idxI_range_map _ _ ha0 ha1]
  simp only [Option.some_bind]
  rw [idxI_range_map _ _ hb0 hb1]
  simp only [Option.some_bind]
  rw [idxI_range_map _ _ hc0 hc1]
  simp only [Option.some_bind]
  rw [idxI_range_map _ _ hd0 hd1]
  simp only [Option.some_bind]
  rw [idxI_range_map _ _ he0 he1]
  rw [Int.toNat_of_nonneg ha0, Int.toNat_of_nonneg hb0, Int.toNat_of_nonneg hc0,
    Int.toNat_of_nonneg hd0, Int.toNat_of_nonneg he0]

/-- The floored quotient and truncating remainder recompose a nonnegative
coordinate. -/
lemma fdiv_mul_add_tmod {x b : Int} (hx : 0 ≤ x) (hb : 0 < b) :
    Int.fdiv x b * b + Int.tmod x b = x := by
  rw [Int.fdiv_eq_ediv _ hb.le, Int.tmod_eq_emod hx hb.le, mul_comm]
  exact Int.ediv_add_emod x b

/-- The truncating remainder of an already-in-range coordinate is itself. -/
lemma tmod_eq_self {y b : Int} (h0 : 0 ≤ y) (h1 : y < b) : Int.tmod y b = y := by
  rw [Int.tmod_eq_emod h0 (le_of_lt (lt_of_le_of_lt h0 h1))]
  exact Int.emod_eq_of_lt h0 h1

/-- Master lemma: `getBlock` on any world whose grid was built by `mkGrid` at
the world's own dimensions returns the generating function's block at the
mapped chunk/local indices. -/
lemma getBlock_of_grid_mkGrid {w : World} {f : Int → Int → Int → Int → Int → Block}
    (hgrid : w.grid = mkGrid w.size.chunkCountX w.size.chunkCountZ
      w.size.blocksPerChunkX w.size.blocksPerChunkY w.size.blocksPerChunkZ f)
    (hbx : 0 < w.size.blocksPerChunkX) (hby : 0 < w.size.blocksPerChunkY)
    (hbz : 0 < w.size.blocksPerChunkZ) {x y z : Int}
    (h : isBlockInBounds w x y z = true) :
    getBlock w x y z =
      some (f (Int.fdiv x w.size.blocksPerChunkX) (Int.fdiv z w.size.blocksPerChunkZ)
        (Int.tmod x w.size.blocksPerChunkX) (Int.tmod y w.size.blocksPerChunkY)
        (Int.tmod z w.size.blocksPerChunkZ)) := by
  obtain ⟨⟨hx0, hx1⟩, ⟨hy0, hy1⟩, ⟨hz0, hz1⟩⟩ := (isBlockInBounds_iff w x y z).1 h
  rw [getBlock, if_pos h]
  simp only [worldToBlockCoords]
  rw [hgrid]
  apply blockAt_mkGrid f
  · rw [Int.fdiv_eq_ediv _ hbx.le]
    exact Int.ediv_nonneg hx0 hbx.le
  · rw [Int.fdiv_eq_ediv _ hbx.le]
    exact (Int.ediv_lt_iff_lt_mul hbx).2 (by rwa [mul_comm] at hx1)
  · rw [Int.fdiv_eq_ediv _ hbz.le]
    exact Int.ediv_nonneg hz0 hbz.le
  · rw [Int.fdiv_eq_ediv _ hbz.le]
    exact (Int.ediv_lt_iff_lt_mul hbz).2 (by rwa [mul_comm] at hz1)
  · exact Int.tmod_nonneg _ hx0
  · exact Int.tmod_lt_of_pos _ hbx
  · exact Int.tmod_nonneg _ hy0
  · exact Int.tmod_lt_of_pos _ hby
  · exact Int.tmod_nonneg _ hz0
  · exact Int.tmod_lt_of_pos _ hbz

/-- Regenerating terrain never changes the stored parameters. -/
lemma size_generateTerrain (noise : ℚ → ℚ → ℚ) (w : World) :
    (generateTerrain noise w).size = w.size := rfl

/-- Regenerating terrain never changes the stored terrain parameters. -/
lemma terrain_generateTerrain (noise : ℚ → ℚ → ℚ) (w : World) :
    (generateTerrain noise w).terrain = w.terrain := rfl

/-- On a freshly initialized grid (all five arguments supplied and positive),
`getBlock` returns a Dirt block carrying exactly the queried coordinate. -/
lemma getBlock_initializeGrid {a b c d e : Int} (w : World)
    (hc : 0 < c) (hd : 0 < d) (he : 0 < e)
    {x y z : Int}
    (h : isBlockInBounds (initializeGrid (some a) (some b) (some c) (some d) (some e) w) x y z = true) :
    getBlock (initializeGrid (some a) (some b) (some c) (some d) (some e) w) x y z =
      some { position := (x, y, z), type := BlockType.Dirt, instanceId := none } := by
  have hbounds := (isBlockInBounds_iff _ x y z).1 h
  simp only [initializeGrid, Option.getD_some] at hbounds
  obtain ⟨⟨hx0, hx1⟩, ⟨hy0, hy1⟩, ⟨hz0, hz1⟩⟩ := hbounds
  have hbx' : 0 < (initializeGrid (some a) (some b) (some c) (some d) (some e) w).size.blocksPerChunkX := hc
  have hby' : 0 < (initializeGrid (some a) (some b) (some c) (some d) (some e) w).size.blocksPerChunkY := hd
  have hbz' : 0 < (initializeGrid (some a) (some b) (some c) (some d) (some e) w).size.blocksPerChunkZ := he
  have hgrid : (initializeGrid (some a) (some b) (some c) (some d) (some e) w).grid =
      mkGrid (initializeGrid (some a) (some b) (some c) (some d) (some e) w).size.chunkCountX
        (initializeGrid (some a) (some b) (some c) (some d) (some e) w).size.chunkCountZ
        (initializeGrid (some a) (some b) (some c) (some d) (some e) w).size.blocksPerChunkX
        (initializeGrid (some a) (some b) (some c) (some d) (some e) w).size.blocksPerChunkY
        (initializeGrid (some a) (some b) (some c) (some d) (some e) w).size.blocksPerChunkZ
        (initialBlock c e) := rfl
  rw [getBlock_of_grid_mkGrid hgrid hbx' hby' hbz' h]
  simp only [initializeGrid, Option.getD_some, initialBlock]
  simp only [fdiv_mul_add_tmod hx0 hc, fdiv_mul_add_tmod hz0 he,
    tmod_eq_self hy0 hy1]

/-- Master description of `generateTerrain`: the block type stored at any
coordinate after a run, covering the in-bounds and out-of-bounds cases. -/
lemma getType_generateTerrain (noise : ℚ → ℚ → ℚ) (w : World)
    (hbx : 0 < w.size.blocksPerChunkX) (hby : 0 < w.size.blocksPerChunkY)
    (hbz : 0 < w.size.blocksPerChunkZ) (x y z : Int) :
    (getBlock (generateTerrain noise w) x y z).map Block.type =
      if isBlockInBounds w x y z then
        some (if terrainHeight w noise x z < y then BlockType.Air
          else if y = terrainHeight w noise x z then BlockType.Grass
          else BlockType.Dirt)
      else none := by
  by_cases h : isBlockInBounds w x y z = true
  · rw [if_pos h]
    have hb : isBlockInBounds (generateTerrain noise w) x y z = true := h
    obtain ⟨⟨hx0, hx1⟩, ⟨hy0, hy1⟩, ⟨hz0, hz1⟩⟩ := (isBlockInBounds_iff w x y z).1 h
    have hbx' : 0 < (generateTerrain noise w).size.blocksPerChunkX := hbx
    have hby' : 0 < (generateTerrain noise w).size.blocksPerChunkY := hby
    have hbz' : 0 < (generateTerrain noise w).size.blocksPerChunkZ := hbz
    have hgrid : (generateTerrain noise w).grid =
        mkGrid (generateTerrain noise w).size.chunkCountX
          (generateTerrain noise w).size.chunkCountZ
          (generateTerrain noise w).size.blocksPerChunkX
          (generateTerrain noise w).size.blocksPerChunkY
          (generateTerrain noise w).size.blocksPerChunkZ
          (terrainBlock noise w) := rfl
    rw [getBlock_of_grid_mkGrid hgrid hbx' hby' hbz' hb]
    simp only [Option.map_some', size_generateTerrain, terrainBlock]
    simp only [fdiv_mul_add_tmod hx0 hbx, fdiv_mul_add_tmod hz0 hbz,
      tmod_eq_self hy0 hy1]
    simp only [terrainHeight]
    split_ifs <;> first | rfl | omega
  · have h' : isBlockInBounds w x y z = false := by
      rwa [Bool.not_eq_true] at h
    have h'' : isBlockInBounds (generateTerrain noise w) x y z = false := h'
    rw [getBlock_eq_none_of_not_inBounds h'', if_neg h]
    rfl

/-- Unfolding of one neighbor test inside `isBlockObscured`. -/
lemma isSolidAt_eq_true_iff (o : Option Block) :
    isSolidAt o = true ↔ ∃ b, o = some b ∧ (BLOCK_META_DATA_MAP b.type).isSolid = true := by
  cases o <;> simp [isSolidAt]

/-- The specification's reading of one neighbor condition: the neighbor
coordinate is in bounds and the block found there is solid per the metadata
table. -/
def inBoundsSolid (w : World) (x y z : Int) : Prop :=
  isBlockInBounds w x y z = true ∧
  ∃ b, getBlock w x y z = some b ∧ (BLOCK_META_DATA_MAP b.type).isSolid = true

/-- One neighbor test of `isBlockObscured` succeeds exactly when the neighbor
is in bounds, present, and solid. -/
lemma isSolidAt_getBlock_iff (w : World) (x y z : Int) :
    isSolidAt (getBlock w x y z) = true ↔ inBoundsSolid w x y z := by
  rw [isSolidAt_eq_true_iff]
  constructor
  · rintro ⟨b, hb, hs⟩
    exact ⟨inBounds_of_getBlock_eq_some hb, b, hb, hs⟩
  · rintro ⟨-, b, hb, hs⟩
    exact ⟨b, hb, hs⟩

/-- Characterization of element lookup after an in-place list update. -/
lemma getElem?_modAt {α : Type} (l : List α) (n : Nat) (f : α → α) (m : Nat) :
    (modAt l n f)[m]? = if m = n then l[m]?.map f else l[m]? := by
  induction l generalizing n m with
  | nil => simp [modAt]
  | cons a l ih =>
    cases n with
    | zero =>
      cases m with
      | zero => simp [modAt]
      | succ m => simp [modAt]
    | succ n =>
      cases m with
      | zero => simp [modAt]
      | succ m => simpa [modAt] using ih n m

/-- Characterization of integer-index lookup after an integer-index update. -/
lemma idxI_modI {α : Type} (l : List α) (i j : Int) (f : α → α) :
    idxI (modI l i f) j = if j = i then (idxI l j).map f else idxI l j := by
  unfold idxI modI
  by_cases hi : 0 ≤ i
  · by_cases hj : 0 ≤ j
    · simp only [if_pos hi, if_pos hj, getElem?_modAt]
      by_cases hij : j = i
      · subst hij
        simp
      · have hne : j.toNat ≠ i.toNat := by omega
        simp [hne, hij]
    · have hij : ¬(j = i) := by omega
      simp [hi, hj, hij]
  · by_cases hij : j = i
    · subst hij
      simp [hi]
    · simp [hi, hij]

/-- A projection-preserving update below a bind chain is invisible to the
projected lookup. -/
lemma bind_map_proj_modI {α : Type} (obs : α → Option Block) (f : α → α)
    (hf : ∀ u, (obs (f u)).map Block.position = (obs u).map Block.position)
    (l : List α) (i j : Int) :
    ((idxI (modI l i f) j).bind obs).map Block.position =
      ((idxI l j).bind obs).map Block.position := by
  rw [idxI_modI]
  split
  · cases h : idxI l j <;> simp [hf]
  · rfl

/-- A position-preserving update of blocks is invisible to the projected
lookup. -/
lemma map_proj_modI_idxI (f : Block → Block)
    (hf : ∀ u, (f u).position = u.position) (l : List Block) (i j : Int) :
    (idxI (modI l i f) j).map Block.position = (idxI l j).map Block.position := by
  rw [idxI_modI]
  split
  · cases h : idxI l j <;> simp [hf]
  · rfl

/-- Right-nested form of the optional-chaining lookup. -/
lemma blockAt_eq_bind (g : BlockGrid) (a b c d e : Int) :
    blockAt g a b c d e =
      (idxI g a).bind fun u1 => (idxI u1 b).bind fun u2 =>
        (idxI u2 c).bind fun u3 => (idxI u3 d).bind fun u4 => idxI u4 e := by
  unfold blockAt
  cases idxI g a
  · rfl
  · simp only [Option.some_bind]
    cases idxI _ b
    · rfl
    · simp only [Option.some_bind]
      cases idxI _ c
      · rfl
      · simp only [Option.some_bind]

/-- A type-only update along one coordinate path leaves every block's stored
position unchanged, at every lookup path. -/
lemma blockAt_setPath_position (g : BlockGrid) (p1 p2 p3 p4 p5 : Int) (t : BlockType)
    (a b c d e : Int) :
    (blockAt (modI g p1 fun g1 => modI g1 p2 fun g2 => modI g2 p3 fun g3 =>
        modI g3 p4 fun g4 => modI g4 p5 fun bb => { bb with type := t }) a b c d e).map
        Block.position
      = (blockAt g a b c d e).map Block.position := by
  rw [blockAt_eq_bind, blockAt_eq_bind]
  apply bind_map_proj_modI
  intro u1
  apply bind_map_proj_modI
  intro u2
  apply bind_map_proj_modI
  intro u3
  apply bind_map_proj_modI
  intro u4
  exact map_proj_modI_idxI (fun bb => { bb with type := t }) (fun _ => rfl) u4 p5 e

/-- Setting a block's type never changes the stored parameters. -/
lemma size_setBlockType (w : World) (x y z : Int) (t : BlockType) :
    (setBlockType w x y z t).size = w.size := by
  unfold setBlockType
  cases getBlock w x y z <;> rfl

/-- A `getBlock` on a world whose grid was replaced, spelled out. -/
lemma getBlock_grid_update (w : World) (G : BlockGrid) (x y z : Int) :
    getBlock { w with grid := G } x y z =
      if isBlockInBounds w x y z then
        blockAt G (worldToBlockCoords w x y z).chunkX (worldToBlockCoords w x y z).chunkZ
          (worldToBlockCoords w x y z).blockX (worldToBlockCoords w x y z).blockY
          (worldToBlockCoords w x y z).blockZ
      else none := rfl

/-- Setting one block's type never changes any block's stored position. -/
lemma getBlock_setBlockType_position (w : World) (x y z : Int) (t : BlockType)
    (a b c : Int) :
    (getBlock (setBlockType w x y z t) a b c).map Block.position =
      (getBlock w a b c).map Block.position := by
  unfold setBlockType
  cases hg : getBlock w x y z with
  | none => rfl
  | some bb =>
    rw [getBlock_grid_update]
    conv_rhs => rw [show getBlock w a b c = getBlock { w with grid := w.grid } a b c from rfl,
      getBlock_grid_update]
    by_cases hin : isBlockInBounds w a b c = true
    · rw [if_pos hin, if_pos hin]
      exact blockAt_setPath_position w.grid _ _ _ _ _ t _ _ _ _ _
    · rw [if_neg hin, if_neg hin]

/-- Extensionality for the embedded store state. -/
lemma World.ext' {w1 w2 : World} (hg : w1.grid = w2.grid) (hs : w1.size = w2.size)
    (ht : w1.terrain = w2.terrain) : w1 = w2 := by
  cases w1
  cases w2
  cases hg
  cases hs
  cases ht
  rfl

/-- Two grid builders that agree on all in-range indices build the same grid. -/
lemma mkGrid_congr (cX cZ bX bY bZ : Int) (f g : Int → Int → Int → Int → Int → Block)
    (h : ∀ cx cz lx ly lz : Nat, cx < cX.toNat → cz < cZ.toNat → lx < bX.toNat →
      ly < bY.toNat → lz < bZ.toNat →
        f (cx : Int) (cz : Int) (lx : Int) (ly : Int) (lz : Int) =
          g (cx : Int) (cz : Int) (lx : Int) (ly : Int) (lz : Int)) :
    mkGrid cX cZ bX bY bZ f = mkGrid cX cZ bX bY bZ g := by
  unfold mkGrid
  apply List.map_congr_left
  intro cx hcx
  apply List.map_congr_left
  intro cz hcz
  apply List.map_congr_left
  intro lx hlx
  apply List.map_congr_left
  intro ly hly
  apply List.map_congr_left
  intro lz hlz
  exact h cx cz lx ly lz (List.mem_range.1 hcx) (List.mem_range.1 hcz)
    (List.mem_range.1 hlx) (List.mem_range.1 hly) (List.mem_range.1 hlz)

/-- Reinitializing with the same (possibly defaulted) arguments twice is the
same as doing it once: the second call resolves every argument to the same
value and rebuilds an identical grid. -/
lemma initializeGrid_initializeGrid (a b c d e : Option Int) (w : World) :
    initializeGrid a b c d e (initializeGrid a b c d e w) =
      initializeGrid a b c d e w := by
  cases a <;> cases b <;> cases c <;> cases d <;> cases e <;> rfl

/-- Rerunning `generateTerrain` with the same noise on a grid that was itself
fully built by `mkGrid` at the current dimensions changes nothing: the second
pass recomputes the same types and re-copies the same positions and instance
ids. -/
lemma generateTerrain_generateTerrain (noise : ℚ → ℚ → ℚ) (v : World)
    (f : Int → Int → Int → Int → Int → Block)
    (hf : v.grid = mkGrid v.size.chunkCountX v.size.chunkCountZ
      v.size.blocksPerChunkX v.size.blocksPerChunkY v.size.blocksPerChunkZ f) :
    generateTerrain noise (generateTerrain noise v) = generateTerrain noise v := by
  refine World.ext' ?_ (by rfl) (by rfl)
  show mkGrid v.size.chunkCountX v.size.chunkCountZ v.size.blocksPerChunkX
      v.size.blocksPerChunkY v.size.blocksPerChunkZ
      (terrainBlock noise (generateTerrain noise v)) =
    mkGrid v.size.chunkCountX v.size.chunkCountZ v.size.blocksPerChunkX
      v.size.blocksPerChunkY v.size.blocksPerChunkZ (terrainBlock noise v)
  apply mkGrid_congr
  intro cx cz lx ly lz hcx hcz hlx hly hlz
  have hgrid1 : (generateTerrain noise v).grid =
      mkGrid v.size.chunkCountX v.size.chunkCountZ v.size.blocksPerChunkX
        v.size.blocksPerChunkY v.size.blocksPerChunkZ (terrainBlock noise v) := rfl
  unfold terrainBlock
  simp only [size_generateTerrain, terrain_generateTerrain, hgrid1]
  rw [blockAt_mkGrid (terrainBlock noise v) (by omega) (by omega) (by omega) (by omega)
    (by omega) (by omega) (by omega) (by omega) (by omega) (by omega)]
  simp only [Option.getD_some]
  conv_rhs => rw [hf]
  rw [blockAt_mkGrid f (by omega) (by omega) (by omega) (by omega)
    (by omega) (by omega) (by omega) (by omega) (by omega) (by omega)]
  simp only [Option.getD_some]
  unfold terrainBlock
  simp only [hf]
  rw [blockAt_mkGrid f (by omega) (by omega) (by omega) (by omega)
    (by omega) (by omega) (by omega) (by omega) (by omega) (by omega)]
  simp only [Option.getD_some]

/-- The specification's coordinate invariant: every in-bounds coordinate
resolves through `getBlock` to a block whose stored position is that
coordinate. -/
def PosInv (w : World) : Prop :=
  ∀ x y z : Int, isBlockInBounds w x y z = true →
    ∃ b, getBlock w x y z = some b ∧ b.position = (x, y, z)

/-- Bounds checking only reads the stored size parameters. -/
lemma isBlockInBounds_congr {w1 w2 : World} (h : w1.size = w2.size) (x y z : Int) :
    isBlockInBounds w1 x y z = isBlockInBounds w2 x y z := by
  simp [isBlockInBounds, h]

/-- A freshly initialized grid satisfies the coordinate invariant. -/
lemma posInv_initializeGrid (a b c d e : Int) (w : World)
    (hc : 0 < c) (hd : 0 < d) (he : 0 < e) :
    PosInv (initializeGrid (some a) (some b) (some c) (some d) (some e) w) :=
  fun _ _ _ h => ⟨_, getBlock_initializeGrid w hc hd he h, rfl⟩

/-- Regenerating terrain preserves the coordinate invariant: each rebuilt block
copies the position of the previous block at the same indices. -/
lemma posInv_generateTerrain (noise : ℚ → ℚ → ℚ) (w : World)
    (hbx : 0 < w.size.blocksPerChunkX) (hby : 0 < w.size.blocksPerChunkY)
    (hbz : 0 < w.size.blocksPerChunkZ) (hinv : PosInv w) :
    PosInv (generateTerrain noise w) := by
  intro x y z h
  have hw : isBlockInBounds w x y z = true := h
  obtain ⟨bb, hbb, hpos⟩ := hinv x y z hw
  have hbx' : 0 < (generateTerrain noise w).size.blocksPerChunkX := hbx
  have hby' : 0 < (generateTerrain noise w).size.blocksPerChunkY := hby
  have hbz' : 0 < (generateTerrain noise w).size.blocksPerChunkZ := hbz
  have hgrid : (generateTerrain noise w).grid =
      mkGrid (generateTerrain noise w).size.chunkCountX
        (generateTerrain noise w).size.chunkCountZ
        (generateTerrain noise w).size.blocksPerChunkX
        (generateTerrain noise w).size.blocksPerChunkY
        (generateTerrain noise w).size.blocksPerChunkZ
        (terrainBlock noise w) := rfl
  rw [getBlock_of_grid_mkGrid hgrid hbx' hby' hbz' h]
  refine ⟨_, rfl, ?_⟩
  have hba : blockAt w.grid (Int.fdiv x w.size.blocksPerChunkX)
      (Int.fdiv z w.size.blocksPerChunkZ) (Int.tmod x w.size.blocksPerChunkX)
      (Int.tmod y w.size.blocksPerChunkY) (Int.tmod z w.size.blocksPerChunkZ) =
      some bb := by
    rw [← hbb, getBlock, if_pos hw]
    simp only [worldToBlockCoords]
  unfold terrainBlock
  simp only [size_generateTerrain, hba, Option.getD_some]
  exact hpos

/-- Setting one block's type preserves the coordinate invariant. -/
lemma posInv_setBlockType (w : World) (x y z : Int) (t : BlockType)
    (hinv : PosInv w) : PosInv (setBlockType w x y z t) := by
  intro a b c h
  have hw : isBlockInBounds w a b c = true := by
    rwa [isBlockInBounds_congr (size_setBlockType w x y z t) a b c] at h
  obtain ⟨bb, hbb, hpos⟩ := hinv a b c hw
  have hmap := getBlock_setBlockType_position w x y z t a b c
  rw [hbb] at hmap
  cases hget : getBlock (setBlockType w x y z t) a b c with
  | none =>
    rw [hget] at hmap
    exact absurd hmap (by simp)
  | some b' =>
    rw [hget] at hmap
    simp only [Option.map_some'] at hmap
    refine ⟨b', rfl, ?_⟩
    rw [Option.some_inj.1 hmap, hpos]

/-! ### Concrete states used by witnesses and counterexamples -/

/-- A concrete stand-in for the library noise function (any pure function is a
legitimate instance of the noise parameter). -/
def noiseZero : ℚ → ℚ → ℚ := fun _ _ => 0

/-- A small configured world: one chunk of 2×2×2 blocks over the default
initial state. -/
def W1 : World :=
  initializeGrid (some 1) (some 1) (some 2) (some 2) (some 2) initialState

/-- The same world with one block's type changed, giving a second prior state
with identical parameters but different block types. -/
def W2 : World := setBlockType W1 0 0 0 BlockType.Air

/-- The small world with terrain parameters scale 1, magnitude 0, offset 0
(the control panel writes arbitrary numeric values into `params.terrain`, so
this is a legitimate configuration); with any noise the column height is 0. -/
def WT : World := { W1 with terrain := ⟨1, 0, 0, 0⟩ }

/-- The small world with a non-positive terrain scale (scale 0, magnitude 0,
offset 0), exercising the unvalidated-scale regime of `generateTerrain`. -/
def WS : World := { W1 with terrain := ⟨0, 0, 0, 0⟩ }

/-! ### Claim theorems -/

/-- C1: after a `generateTerrain` run, every in-bounds block at `(x, y, z)`
ends with type Air if `y` is above the column's clamped height, Grass exactly
at the height, and Dirt below it, where the height is
`clamp(floor(blocksPerChunkY * (offset + magnitude * noise(x / scale, z / scale))), 0, blocksPerChunkY - 1)`. -/
theorem generateTerrain_column_profile (noise : ℚ → ℚ → ℚ) (w : World)
    (hbx : 0 < w.size.blocksPerChunkX) (hby : 0 < w.size.blocksPerChunkY)
    (hbz : 0 < w.size.blocksPerChunkZ) (x y z : Int)
    (h : isBlockInBounds (generateTerrain noise w) x y z = true) :
    (getBlock (generateTerrain noise w) x y z).map Block.type =
      some (if terrainHeight w noise x z < y then BlockType.Air
        else if y = terrainHeight w noise x z then BlockType.Grass
        else BlockType.Dirt) := by
  have hw : isBlockInBounds w x y z = true := h
  rw [getType_generateTerrain noise w hbx hby hbz x y z, if_pos hw]

/-- Witness for C1 at a concrete input: in the 1×1-chunk 2×2×2 world with
magnitude-0 terrain the column height is 0, so the block above it is Air. -/
theorem generateTerrain_column_profile_witness :
    (getBlock (generateTerrain noiseZero WT) 0 1 0).map Block.type =
      some BlockType.Air := by
  have h := generateTerrain_column_profile noiseZero WT (by decide) (by decide)
    (by decide) 0 1 0 (by decide)
  have ht : terrainHeight WT noiseZero 0 0 = 0 := by
    simp [terrainHeight, WT, W1, initializeGrid, initialState, noiseZero]
  rw [h, ht]
  decide

/-- C2: `isBlockObscured` is true iff all six axis neighbors are in bounds,
present, and solid per the metadata table; consequently a block on any world
boundary face is never obscured. -/
theorem isBlockObscured_neighbors_and_boundary (w : World) (x y z : Int) :
    (isBlockObscured w x y z = true ↔
      inBoundsSolid w (x - 1) y z ∧ inBoundsSolid w (x + 1) y z ∧
      inBoundsSolid w x (y - 1) z ∧ inBoundsSolid w x (y + 1) z ∧
      inBoundsSolid w x y (z - 1) ∧ inBoundsSolid w x y (z + 1)) ∧
    ((x = 0 ∨ x = w.size.blocksPerChunkX * w.size.chunkCountX - 1 ∨
      y = 0 ∨ y = w.size.blocksPerChunkY - 1 ∨
      z = 0 ∨ z = w.size.blocksPerChunkZ * w.size.chunkCountZ - 1) →
      isBlockObscured w x y z = false) := by
  have hiff : isBlockObscured w x y z = true ↔
      inBoundsSolid w (x - 1) y z ∧ inBoundsSolid w (x + 1) y z ∧
      inBoundsSolid w x (y - 1) z ∧ inBoundsSolid w x (y + 1) z ∧
      inBoundsSolid w x y (z - 1) ∧ inBoundsSolid w x y (z + 1) := by
    unfold isBlockObscured
    simp only [Bool.and_eq_true, isSolidAt_getBlock_iff]
    tauto
  refine ⟨hiff, ?_⟩
  intro hb
  cases hobs : isBlockObscured w x y z
  · rfl
  · exfalso
    have six := hiff.1 hobs
    rcases hb with h0 | h0 | h0 | h0 | h0 | h0
    · have hx := six.1.1
      rw [isBlockInBounds_iff] at hx
      omega
    · have hx := six.2.1.1
      rw [isBlockInBounds_iff] at hx
      omega
    · have hy := six.2.2.1.1
      rw [isBlockInBounds_iff] at hy
      omega
    · have hy := six.2.2.2.1.1
      rw [isBlockInBounds_iff] at hy
      omega
    · have hz := six.2.2.2.2.1.1
      rw [isBlockInBounds_iff] at hz
      omega
    · have hz := six.2.2.2.2.2.1
      rw [isBlockInBounds_iff] at hz
      omega

/-- Witness for C2 at a concrete input: the corner block of the small world is
on the boundary, hence not obscured. -/
theorem isBlockObscured_boundary_witness : isBlockObscured W1 0 0 0 = false :=
  (isBlockObscured_neighbors_and_boundary W1 0 0 0).2 (Or.inl rfl)

/-- C3: for fixed size and terrain parameters (hence a fixed seed and noise
function), two `generateTerrain` runs from any two prior states produce
identical block types at every coordinate — the generated type depends only on
the coordinate, the parameters and the noise, never on prior grid contents. -/
theorem generateTerrain_deterministic (noise : ℚ → ℚ → ℚ) (w1 w2 : World)
    (hsize : w1.size = w2.size) (hterr : w1.terrain = w2.terrain)
    (hbx : 0 < w1.size.blocksPerChunkX) (hby : 0 < w1.size.blocksPerChunkY)
    (hbz : 0 < w1.size.blocksPerChunkZ) (x y z : Int) :
    (getBlock (generateTerrain noise w1) x y z).map Block.type =
      (getBlock (generateTerrain noise w2) x y z).map Block.type := by
  have hbx2 : 0 < w2.size.blocksPerChunkX := by rw [← hsize]; exact hbx
  have hby2 : 0 < w2.size.blocksPerChunkY := by rw [← hsize]; exact hby
  have hbz2 : 0 < w2.size.blocksPerChunkZ := by rw [← hsize]; exact hbz
  rw [getType_generateTerrain noise w1 hbx hby hbz x y z,
    getType_generateTerrain noise w2 hbx2 hby2 hbz2 x y z]
  have hin : isBlockInBounds w1 x y z = isBlockInBounds w2 x y z :=
    isBlockInBounds_congr hsize x y z
  have hth : terrainHeight w1 noise x z = terrainHeight w2 noise x z := by
    unfold terrainHeight
    rw [hsize, hterr]
  rw [hin, hth]

/-- Witness for C3 at a concrete input: the two prior states differ in a block
type but share parameters; the regenerated types agree. -/
theorem generateTerrain_deterministic_witness :
    (getBlock (generateTerrain noiseZero W1) 1 1 1).map Block.type =
      (getBlock (generateTerrain noiseZero W2) 1 1 1).map Block.type :=
  generateTerrain_deterministic noiseZero W1 W2 rfl rfl (by decide) (by decide)
    (by decide) 1 1 1

/-- C4 (counterexample): in the store's initial state no grid has been
allocated, yet the default size parameters make `(0,0,0)` in-bounds; `getBlock`
returns `none` there, refuting the claim that `get` returns `None` exactly on
out-of-bounds coordinates in every reachable state, including before any grid
has been allocated. -/
theorem getBlock_initial_state_counterexample :
    getBlock initialState 0 0 0 = none ∧
    isBlockInBounds initialState 0 0 0 = true := by
  constructor
  · rfl
  · decide

/-- C4 (amended): `getBlock` and `isBlockObscured` are total functions; out of
bounds always yields `none`; and once a grid has been allocated by
`initializeGrid` with positive dimensions, `getBlock` returns `none` exactly
when the coordinate is out of bounds. -/
theorem getBlock_none_oob_and_allocated_iff :
    (∀ (w : World) (x y z : Int), isBlockInBounds w x y z = false →
      getBlock w x y z = none) ∧
    (∀ (a b c d e : Int) (w : World), 0 < c → 0 < d → 0 < e →
      ∀ x y z : Int,
        (getBlock (initializeGrid (some a) (some b) (some c) (some d) (some e) w) x y z = none ↔
          isBlockInBounds (initializeGrid (some a) (some b) (some c) (some d) (some e) w) x y z = false)) := by
  constructor
  · intro w x y z h
    exact getBlock_eq_none_of_not_inBounds h
  · intro a b c d e w hc hd he x y z
    constructor
    · intro hnone
      cases hin : isBlockInBounds (initializeGrid (some a) (some b) (some c) (some d) (some e) w) x y z
      · rfl
      · rw [getBlock_initializeGrid w hc hd he hin] at hnone
        exact Option.noConfusion hnone
    · exact getBlock_eq_none_of_not_inBounds

/-- Witness for the amended C4 at a concrete input. -/
theorem getBlock_allocated_iff_witness :
    getBlock W1 2 0 0 = none ↔ isBlockInBounds W1 2 0 0 = false :=
  getBlock_none_oob_and_allocated_iff.2 1 1 2 2 2 initialState (by decide)
    (by decide) (by decide) 2 0 0

/-- C5 (counterexample): at the negative coordinate `x = -1` the mapper's local
index is the truncating remainder `-1`, not the floored modulo `15`, and it is
negative — refuting the claim that floored modulo is used and local indices
stay nonnegative. -/
theorem worldToBlockCoords_truncating_counterexample :
    (worldToBlockCoords initialState (-1) 0 0).blockX = -1 ∧
    Int.fmod (-1) 16 = 15 ∧
    (worldToBlockCoords initialState (-1) 0 0).blockX < 0 := by
  refine ⟨rfl, by decide, by decide⟩

/-- C5 (amended): the mapper computes the floored chunk quotients, and its
local indices are the truncating remainder, which agrees with floored modulo
(and in particular is nonnegative) exactly on nonnegative world coordinates
with positive chunk dimensions. -/
theorem worldToBlockCoords_floor_on_nonneg (w : World) (x y z : Int)
    (hx : 0 ≤ x) (hy : 0 ≤ y) (hz : 0 ≤ z)
    (hbx : 0 < w.size.blocksPerChunkX) (hby : 0 < w.size.blocksPerChunkY)
    (hbz : 0 < w.size.blocksPerChunkZ) :
    (worldToBlockCoords w x y z).chunkX = Int.fdiv x w.size.blocksPerChunkX ∧
    (worldToBlockCoords w x y z).chunkZ = Int.fdiv z w.size.blocksPerChunkZ ∧
    (worldToBlockCoords w x y z).blockX = Int.fmod x w.size.blocksPerChunkX ∧
    (worldToBlockCoords w x y z).blockY = Int.fmod y w.size.blocksPerChunkY ∧
    (worldToBlockCoords w x y z).blockZ = Int.fmod z w.size.blocksPerChunkZ ∧
    0 ≤ (worldToBlockCoords w x y z).blockX ∧
    0 ≤ (worldToBlockCoords w x y z).blockY ∧
    0 ≤ (worldToBlockCoords w x y z).blockZ := by
  have hmx : Int.tmod x w.size.blocksPerChunkX = Int.fmod x w.size.blocksPerChunkX := by
    rw [Int.tmod_eq_emod hx hbx.le, Int.fmod_eq_emod _ hbx.le]
  have hmy : Int.tmod y w.size.blocksPerChunkY = Int.fmod y w.size.blocksPerChunkY := by
    rw [Int.tmod_eq_emod hy hby.le, Int.fmod_eq_emod _ hby.le]
  have hmz : Int.tmod z w.size.blocksPerChunkZ = Int.fmod z w.size.blocksPerChunkZ := by
    rw [Int.tmod_eq_emod hz hbz.le, Int.fmod_eq_emod _ hbz.le]
  exact ⟨rfl, rfl, hmx, hmy, hmz, Int.tmod_nonneg _ hx, Int.tmod_nonneg _ hy,
    Int.tmod_nonneg _ hz⟩

/-- Witness for the amended C5 at a concrete input. -/
theorem worldToBlockCoords_floor_witness :
    (worldToBlockCoords initialState 17 1 2).chunkX = Int.fdiv 17 16 ∧
    (worldToBlockCoords initialState 17 1 2).chunkZ = Int.fdiv 2 16 ∧
    (worldToBlockCoords initialState 17 1 2).blockX = Int.fmod 17 16 ∧
    (worldToBlockCoords initialState 17 1 2).blockY = Int.fmod 1 16 ∧
    (worldToBlockCoords initialState 17 1 2).blockZ = Int.fmod 2 16 ∧
    0 ≤ (worldToBlockCoords initialState 17 1 2).blockX ∧
    0 ≤ (worldToBlockCoords initialState 17 1 2).blockY ∧
    0 ≤ (worldToBlockCoords initialState 17 1 2).blockZ :=
  worldToBlockCoords_floor_on_nonneg initialState 17 1 2 (by decide) (by decide)
    (by decide) (by decide) (by decide) (by decide)

/-- C6 (counterexample): `initializeGrid` initializes every block with
`type: BlockType.Dirt` (part_001 line 317), not Air — the freshly allocated
block at the origin is Dirt. -/
theorem initializeGrid_dirt_counterexample :
    (getBlock W1 0 0 0).map Block.type = some BlockType.Dirt ∧
    BlockType.Dirt ≠ BlockType.Air := by
  constructor
  · rfl
  · decide

/-- C6 (amended): `initializeGrid` builds the full chunked structure; every
in-bounds coordinate resolves to a block carrying its resolved world position,
`instanceId = none`, and the default type Dirt (not Air). -/
theorem initializeGrid_resolved_blocks (a b c d e : Int) (w : World)
    (hc : 0 < c) (hd : 0 < d) (he : 0 < e) (x y z : Int)
    (h : isBlockInBounds (initializeGrid (some a) (some b) (some c) (some d) (some e) w) x y z = true) :
    getBlock (initializeGrid (some a) (some b) (some c) (some d) (some e) w) x y z =
      some { position := (x, y, z), type := BlockType.Dirt, instanceId := none } :=
  getBlock_initializeGrid w hc hd he h

/-- Witness for the amended C6 at a concrete input. -/
theorem initializeGrid_resolved_blocks_witness :
    getBlock W1 1 1 1 =
      some { position := (1, 1, 1), type := BlockType.Dirt, instanceId := none } :=
  initializeGrid_resolved_blocks 1 1 2 2 2 initialState (by decide) (by decide)
    (by decide) 1 1 1 (by decide)

/-- C7 (counterexample): a `initializeGrid` call with chunk count 0 is not
rejected — it overwrites the stored dimension parameter and replaces the grid
of the previously valid world with an empty one. -/
theorem initializeGrid_mutation_counterexample :
    (initializeGrid (some 0) (some 1) (some 2) (some 2) (some 2) W1).size.chunkCountX = 0 ∧
    W1.size.chunkCountX = 1 ∧
    (initializeGrid (some 0) (some 1) (some 2) (some 2) (some 2) W1).grid = ([] : BlockGrid) ∧
    W1.grid ≠ ([] : BlockGrid) := by
  refine ⟨rfl, rfl, rfl, by decide⟩

/-- C7 (amended): neither `initializeGrid` nor `generateTerrain` validates its
parameters. A configure call overwrites all five stored dimension parameters
with the given values whether or not they are positive, and the rebuilt grid
is empty along every non-positive axis (chunk counts and blocks-per-chunk
values alike) — the grid does not remain in its previous valid state.
`generateTerrain` is likewise never rejected: it keeps the stored parameters
and, even with a non-positive scale, rebuilds every in-bounds block's type
from the height profile. -/
theorem initializeGrid_no_validation :
    (∀ (a b c d e : Int) (w : World),
      (initializeGrid (some a) (some b) (some c) (some d) (some e) w).size =
        ⟨a, b, c, e, d⟩) ∧
    (∀ (a b c d e : Int) (w : World), a ≤ 0 →
      (initializeGrid (some a) (some b) (some c) (some d) (some e) w).grid =
        ([] : BlockGrid)) ∧
    (∀ (a b c d e : Int) (w : World), b ≤ 0 →
      ∀ g1 ∈ (initializeGrid (some a) (some b) (some c) (some d) (some e) w).grid,
        g1 = []) ∧
    (∀ (a b c d e : Int) (w : World), c ≤ 0 →
      ∀ g1 ∈ (initializeGrid (some a) (some b) (some c) (some d) (some e) w).grid,
        ∀ g2 ∈ g1, g2 = []) ∧
    (∀ (a b c d e : Int) (w : World), d ≤ 0 →
      ∀ g1 ∈ (initializeGrid (some a) (some b) (some c) (some d) (some e) w).grid,
        ∀ g2 ∈ g1, ∀ g3 ∈ g2, g3 = []) ∧
    (∀ (a b c d e : Int) (w : World), e ≤ 0 →
      ∀ g1 ∈ (initializeGrid (some a) (some b) (some c) (some d) (some e) w).grid,
        ∀ g2 ∈ g1, ∀ g3 ∈ g2, ∀ g4 ∈ g3, g4 = []) ∧
    (∀ (noise : ℚ → ℚ → ℚ) (w : World),
      (generateTerrain noise w).size = w.size ∧
      (generateTerrain noise w).terrain = w.terrain ∧
      (w.terrain.scale ≤ 0 → 0 < w.size.blocksPerChunkX →
        0 < w.size.blocksPerChunkY → 0 < w.size.blocksPerChunkZ →
        ∀ x y z : Int, isBlockInBounds w x y z = true →
          (getBlock (generateTerrain noise w) x y z).map Block.type =
            some (if terrainHeight w noise x z < y then BlockType.Air
              else if y = terrainHeight w noise x z then BlockType.Grass
              else BlockType.Dirt))) := by
  refine ⟨fun a b c d e w => rfl, ?_, ?_, ?_, ?_, ?_, ?_⟩
  · intro a b c d e w ha
    show mkGrid a b c d e (initialBlock c e) = ([] : BlockGrid)
    unfold mkGrid
    rw [Int.toNat_of_nonpos ha]
    rfl
  · intro a b c d e w hb g1 hg1
    rw [show (initializeGrid (some a) (some b) (some c) (some d) (some e) w).grid =
      mkGrid a b c d e (initialBlock c e) from rfl] at hg1
    unfold mkGrid at hg1
    obtain ⟨i, hi, rfl⟩ := List.mem_map.1 hg1
    rw [Int.toNat_of_nonpos hb]
    rfl
  · intro a b c d e w hc g1 hg1 g2 hg2
    rw [show (initializeGrid (some a) (some b) (some c) (some d) (some e) w).grid =
      mkGrid a b c d e (initialBlock c e) from rfl] at hg1
    unfold mkGrid at hg1
    obtain ⟨i, hi, rfl⟩ := List.mem_map.1 hg1
    obtain ⟨j, hj, rfl⟩ := List.mem_map.1 hg2
    rw [Int.toNat_of_nonpos hc]
    rfl
  · intro a b c d e w hd g1 hg1 g2 hg2 g3 hg3
    rw [show (initializeGrid (some a) (some b) (some c) (some d) (some e) w).grid =
      mkGrid a b c d e (initialBlock c e) from rfl] at hg1
    unfold mkGrid at hg1
    obtain ⟨i, hi, rfl⟩ := List.mem_map.1 hg1
    obtain ⟨j, hj, rfl⟩ := List.mem_map.1 hg2
    obtain ⟨k, hk, rfl⟩ := List.mem_map.1 hg3
    rw [Int.toNat_of_nonpos hd]
    rfl
  · intro a b c d e w he g1 hg1 g2 hg2 g3 hg3 g4 hg4
    rw [show (initializeGrid (some a) (some b) (some c) (some d) (some e) w).grid =
      mkGrid a b c d e (initialBlock c e) from rfl] at hg1
    unfold mkGrid at hg1
    obtain ⟨i, hi, rfl⟩ := List.mem_map.1 hg1
    obtain ⟨j, hj, rfl⟩ := List.mem_map.1 hg2
    obtain ⟨k, hk, rfl⟩ := List.mem_map.1 hg3
    obtain ⟨m, hm, rfl⟩ := List.mem_map.1 hg4
    rw [Int.toNat_of_nonpos he]
    rfl
  · intro noise w
    refine ⟨rfl, rfl, ?_⟩
    intro hscale hbx hby hbz x y z hin
    rw [getType_generateTerrain noise w hbx hby hbz x y z, if_pos hin]

/-- Witness for the amended C7 at concrete inputs: a configure with chunk
count 0 stores the given dimensions and leaves an empty grid, and a
regeneration with scale 0 still rebuilds the in-bounds blocks (Grass at the
height-0 surface). -/
theorem initializeGrid_no_validation_witness :
    (initializeGrid (some 0) (some 3) (some 4) (some 5) (some 6) W1).size =
      ⟨0, 3, 4, 6, 5⟩ ∧
    (initializeGrid (some 0) (some 3) (some 4) (some 5) (some 6) W1).grid =
      ([] : BlockGrid) ∧
    (getBlock (generateTerrain noiseZero WS) 0 0 0).map Block.type =
      some BlockType.Grass := by
  refine ⟨initializeGrid_no_validation.1 0 3 4 5 6 W1,
    initializeGrid_no_validation.2.1 0 3 4 5 6 W1 (by decide), ?_⟩
  have h := (initializeGrid_no_validation.2.2.2.2.2.2 noiseZero WS).2.2
    (le_refl 0) (by decide) (by decide) (by decide) 0 0 0 (by decide)
  have ht : terrainHeight WS noiseZero 0 0 = 0 := by
    simp [terrainHeight, WS, W1, initializeGrid, initialState, noiseZero]
  rw [h, ht]
  decide

/-- C8: after a configure with positive dimensions every in-bounds coordinate
resolves through `getBlock` to exactly one block whose stored position is that
coordinate, and this invariant is preserved by `generateTerrain` and by every
`setBlockType` call (and by any further configure, which re-establishes it). -/
theorem position_invariant_operations :
    (∀ (a b c d e : Int) (w : World), 0 < c → 0 < d → 0 < e →
      PosInv (initializeGrid (some a) (some b) (some c) (some d) (some e) w)) ∧
    (∀ (noise : ℚ → ℚ → ℚ) (w : World), 0 < w.size.blocksPerChunkX →
      0 < w.size.blocksPerChunkY → 0 < w.size.blocksPerChunkZ → PosInv w →
      PosInv (generateTerrain noise w)) ∧
    (∀ (w : World) (x y z : Int) (t : BlockType), PosInv w →
      PosInv (setBlockType w x y z t)) :=
  ⟨fun a b c d e w hc hd he => posInv_initializeGrid a b c d e w hc hd he,
   fun noise w hbx hby hbz hinv => posInv_generateTerrain noise w hbx hby hbz hinv,
   fun w x y z t hinv => posInv_setBlockType w x y z t hinv⟩

/-- Witness for C8 at a concrete input: the freshly configured small world
resolves `(1,0,1)` to a block stored at exactly that position. -/
theorem position_invariant_witness :
    ∃ b, getBlock W1 1 0 1 = some b ∧ b.position = (1, 0, 1) :=
  position_invariant_operations.1 1 1 2 2 2 initialState (by decide) (by decide)
    (by decide) 1 0 1 (by decide)

/-- C9: configuring twice with the same arguments and then regenerating twice
with the same parameters (the same seed, hence the same noise function) yields
exactly the same world — every block's type, position and instance id — as
configuring and regenerating once. -/
theorem rebuild_idempotent (w : World) (a b c d e : Option Int)
    (noise : ℚ → ℚ → ℚ) :
    generateTerrain noise (generateTerrain noise
        (initializeGrid a b c d e (initializeGrid a b c d e w))) =
      generateTerrain noise (initializeGrid a b c d e w) := by
  rw [initializeGrid_initializeGrid]
  exact generateTerrain_generateTerrain noise (initializeGrid a b c d e w) _ rfl

/-- C10: after `generateTerrain` on a configured grid, every in-bounds column
contains exactly one Grass block: the clamped height always lies in
`[0, blocksPerChunkY)`, and a block's type is Grass exactly at that height. -/
theorem generateTerrain_unique_grass (noise : ℚ → ℚ → ℚ) (w : World)
    (hbx : 0 < w.size.blocksPerChunkX) (hby : 0 < w.size.blocksPerChunkY)
    (hbz : 0 < w.size.blocksPerChunkZ) (x z : Int)
    (hx0 : 0 ≤ x) (hx1 : x < w.size.blocksPerChunkX * w.size.chunkCountX)
    (hz0 : 0 ≤ z) (hz1 : z < w.size.blocksPerChunkZ * w.size.chunkCountZ) :
    0 ≤ terrainHeight w noise x z ∧
    terrainHeight w noise x z < w.size.blocksPerChunkY ∧
    ∀ y : Int, 0 ≤ y → y < w.size.blocksPerChunkY →
      ((getBlock (generateTerrain noise w) x y z).map Block.type =
          some BlockType.Grass ↔ y = terrainHeight w noise x z) := by
  have hb1 : 0 ≤ terrainHeight w noise x z := le_max_left _ _
  have hb2 : terrainHeight w noise x z < w.size.blocksPerChunkY := by
    unfold terrainHeight
    exact max_lt_iff.2 ⟨by omega, lt_of_le_of_lt (min_le_right _ _) (by omega)⟩
  refine ⟨hb1, hb2, ?_⟩
  intro y hy0 hy1
  have hin : isBlockInBounds w x y z = true :=
    (isBlockInBounds_iff w x y z).2 ⟨⟨hx0, hx1⟩, ⟨hy0, hy1⟩, ⟨hz0, hz1⟩⟩
  rw [getType_generateTerrain noise w hbx hby hbz x y z, if_pos hin]
  constructor
  · intro hg
    split_ifs at hg with h1 h2
    · exact absurd (Option.some_inj.1 hg) (by decide)
    · exact h2
    · exact absurd (Option.some_inj.1 hg) (by decide)
  · intro he
    rw [if_neg (by omega), if_pos he]

/-- Witness for C10 at a concrete input. -/
theorem generateTerrain_unique_grass_witness :
    (getBlock (generateTerrain noiseZero WT) 0 0 0).map Block.type =
        some BlockType.Grass ↔ (0 : Int) = terrainHeight WT noiseZero 0 0 :=
  (generateTerrain_unique_grass noiseZero WT (by decide) (by decide) (by decide)
    0 0 (by decide) (by decide) (by decide) (by decide)).2.2 0 (by decide) (by decide)
